import Mathlib

/-!
Verification of the regime-classification and strategy-dispatch core of a
rule-based trading-signal generator (files `new.py`, `main.py`,
`two_out_of_three_strat_trending.py`).

Modelling conventions:
- Prices and indicator readings are rationals (`ℚ`).
- An evaluator only reads the latest value of each indicator series
  (`series.iloc[-1]` in the source), so evaluators take those latest values
  as arguments; the indicator arithmetic itself is an external library.
- The SMA votes are computed in the source itself from the close series
  (`data['Close'].rolling(window=w, min_periods=1).mean()`), so they are
  modelled over the full list of closes.
- A smoothed classifier input can be undefined (pandas `NaN`) when the
  window is shorter than the lookback; this is modelled as `Option ℚ`,
  with the pandas rule that any comparison with `NaN` is false.
- Signals are the source's literal strings, namely "buy", "sell" and "hold".
-/

/-- Pandas-style comparison: `x > t` is false when `x` is undefined (`NaN`). -/
def optGtQ : Option ℚ → ℚ → Bool
  | some x, t => decide (x > t)
  | none, _ => false

/-- `identify_market_condition` (new.py lines 63-104): classifies the regime
from the latest smoothed ADX and the latest smoothed Bollinger width ratio.
The thresholds 25 and 2.0 are the source's constants. -/
def identify_market_condition (latest_adx latest_bbands_width : Option ℚ) : String :=
  let ADX_THRESHOLD : ℚ := 25
  let BBANDS_WIDTH_THRESHOLD : ℚ := 2
  if optGtQ latest_adx ADX_THRESHOLD && optGtQ latest_bbands_width BBANDS_WIDTH_THRESHOLD then
    "trending and volatile"
  else if optGtQ latest_adx ADX_THRESHOLD then
    "trending"
  else if optGtQ latest_bbands_width BBANDS_WIDTH_THRESHOLD then
    "volatile"
  else
    "sideways"

/-- The four strategy evaluators the registry can hand back, as a tagged
enumeration of the function references returned by
`select_strategy_based_on_condition`. -/
inductive Strategy where
  | hybridTrendFollowing
  | sidewaysMarket
  | volatileMarket
  | defaultStrategy
deriving DecidableEq

/-- `select_strategy_based_on_condition` (new.py lines 106-118): string-keyed
dispatch on the regime, with an explicit `else` branch returning the default
strategy. -/
def select_strategy_based_on_condition (market_condition : String) : Strategy :=
  if market_condition = "trending" then
    Strategy.hybridTrendFollowing
  else if market_condition = "sideways" then
    Strategy.sidewaysMarket
  else if market_condition = "volatile" then
    Strategy.volatileMarket
  else
    Strategy.defaultStrategy

/-- Last entry of `series.rolling(window=w, min_periods=1).mean()`: the mean
of the last `min w n` entries of the series. -/
def rollingMeanLast (w : ℕ) (xs : List ℚ) : ℚ :=
  let k := min w xs.length
  (xs.drop (xs.length - k)).sum / (k : ℚ)

/-- The SMA vote of the trend-following evaluators (new.py line 181):
`'buy' if sma_short.iloc[-1] > sma_long.iloc[-1] else 'sell'`. -/
def smaVote (sma_short_window sma_long_window : ℕ) (closes : List ℚ) : String :=
  if rollingMeanLast sma_short_window closes > rollingMeanLast sma_long_window closes then
    "buy"
  else
    "sell"

/-- The MACD vote (new.py line 182):
`'buy' if macd.iloc[-1] > macdsignal.iloc[-1] else 'sell'`. -/
def macdVote (macd macdsignal : ℚ) : String :=
  if macd > macdsignal then "buy" else "sell"

/-- The ADX vote (new.py line 183):
`'buy' if adx.iloc[-1] > adx_threshold else 'sell'`. -/
def adxVote (adx adx_threshold : ℚ) : String :=
  if adx > adx_threshold then "buy" else "sell"

/-- `hybrid_trend_following_strategy` (new.py lines 156-209): three binary
votes, counted, with a 2-of-3 rule when the latest ATR exceeds the
volatility threshold and a 3-of-3 rule otherwise. -/
def hybrid_trend_following_strategy (closes : List ℚ) (macd macdsignal adx atr : ℚ)
    (sma_short_window sma_long_window : ℕ) (adx_threshold volatility_threshold : ℚ) : String :=
  let sma_signal := smaVote sma_short_window sma_long_window closes
  let macd_sig := macdVote macd macdsignal
  let adx_signal := adxVote adx adx_threshold
  let is_volatile := atr > volatility_threshold
  let signals := [sma_signal, macd_sig, adx_signal]
  let buy_signals := signals.count "buy"
  let sell_signals := signals.count "sell"
  if is_volatile then
    if buy_signals ≥ 2 then "buy"
    else if sell_signals ≥ 2 then "sell"
    else "hold"
  else
    if buy_signals = 3 then "buy"
    else if sell_signals = 3 then "sell"
    else "hold"

/-- `consensus_trend_following_strategy`
(two_out_of_three_strat_trending.py lines 3-42): the same three votes with a
flat 2-of-3 rule and no volatility gate. -/
def consensus_trend_following_strategy (closes : List ℚ) (macd macdsignal adx : ℚ)
    (sma_short_window sma_long_window : ℕ) (adx_threshold : ℚ) : String :=
  let sma_signal := smaVote sma_short_window sma_long_window closes
  let macd_sig := macdVote macd macdsignal
  let adx_signal := adxVote adx adx_threshold
  let signals := [sma_signal, macd_sig, adx_signal]
  let buy_signals := signals.count "buy"
  let sell_signals := signals.count "sell"
  if buy_signals ≥ 2 then "buy"
  else if sell_signals ≥ 2 then "sell"
  else "hold"

/-- `sideways_market_strategy` (new.py lines 121-152): OR-combined triggers
over Bollinger Bands, RSI and the Stochastic Oscillator, checked by an
if/elif chain with the buy branch first. -/
def sideways_market_strategy (close lowerband upperband rsi slowk slowd : ℚ) : String :=
  let rsi_overbought : ℚ := 70
  let rsi_oversold : ℚ := 30
  let stochastic_overbought : ℚ := 80
  let stochastic_oversold : ℚ := 20
  if close < lowerband ∨ rsi < rsi_oversold ∨ (slowk < stochastic_oversold ∧ slowk > slowd) then
    "buy"
  else if close > upperband ∨ rsi > rsi_overbought ∨ (slowk > stochastic_overbought ∧ slowk < slowd) then
    "sell"
  else
    "hold"

/-- `volatile_market_strategy` (new.py lines 213-256): RSI plus Bollinger
band breakout with an ATR-scaled stop-loss; returns the action string and
the optional stop-loss of the returned dict. -/
def volatile_market_strategy (close upperband lowerband rsi atr : ℚ)
    (rsi_overbought rsi_oversold atr_multiplier : ℚ) : String × Option ℚ :=
  let is_overbought := rsi > rsi_overbought
  let is_oversold := rsi < rsi_oversold
  let price_above_upper_band := close > upperband
  let price_below_lower_band := close < lowerband
  if is_oversold ∧ price_below_lower_band then
    ("buy", some (close - atr_multiplier * atr))
  else if is_overbought ∧ price_above_upper_band then
    ("sell", some (close + atr_multiplier * atr))
  else
    ("hold", none)

/-- `default_strategy` (new.py lines 259-293): full AND-consensus of MACD
cross, RSI extreme and price versus Parabolic SAR. -/
def default_strategy (close macd macdsignal rsi sar : ℚ)
    (rsi_overbought rsi_oversold : ℚ) : String :=
  let macd_cross_up := macd > macdsignal
  let macd_cross_down := macd < macdsignal
  let is_oversold := rsi < rsi_oversold
  let is_overbought := rsi > rsi_overbought
  let price_above_sar := close > sar
  let price_below_sar := close < sar
  if macd_cross_up ∧ is_oversold ∧ price_above_sar then
    "buy"
  else if macd_cross_down ∧ is_overbought ∧ price_below_sar then
    "sell"
  else
    "hold"

/-- C1: for every window on which the smoothed indicators are defined, the
classifier follows the decision order ADX and width exceeded gives
"trending and volatile", ADX alone "trending", width alone "volatile",
neither "sideways". -/
theorem identify_market_condition_cases (a w : ℚ) :
    (a > 25 → w > 2 →
      identify_market_condition (some a) (some w) = "trending and volatile") ∧
    (a > 25 → ¬ w > 2 →
      identify_market_condition (some a) (some w) = "trending") ∧
    (¬ a > 25 → w > 2 →
      identify_market_condition (some a) (some w) = "volatile") ∧
    (¬ a > 25 → ¬ w > 2 →
      identify_market_condition (some a) (some w) = "sideways") := by
  refine ⟨?_, ?_, ?_, ?_⟩ <;> intro h1 h2 <;>
    simp [identify_market_condition, optGtQ, h1, h2]

/-- Witness for C1: each of the four cases realised at a concrete snapshot. -/
theorem identify_market_condition_cases_witness :
    identify_market_condition (some 30) (some 3) = "trending and volatile" ∧
    identify_market_condition (some 30) (some 1) = "trending" ∧
    identify_market_condition (some 10) (some 3) = "volatile" ∧
    identify_market_condition (some 10) (some 1) = "sideways" :=
  ⟨(identify_market_condition_cases 30 3).1 (by norm_num) (by norm_num),
   (identify_market_condition_cases 30 1).2.1 (by norm_num) (by norm_num),
   (identify_market_condition_cases 10 3).2.2.1 (by norm_num) (by norm_num),
   (identify_market_condition_cases 10 1).2.2.2 (by norm_num) (by norm_num)⟩

/-- C2: the registry maps "trending" to the hybrid trend-following
evaluator, "sideways" to mean reversion, "volatile" to the volatile-market
evaluator, and every other string, "trending and volatile" included, to the
default evaluator through the explicit fallback branch. -/
theorem select_strategy_total (s : String) :
    select_strategy_based_on_condition "trending" = Strategy.hybridTrendFollowing ∧
    select_strategy_based_on_condition "sideways" = Strategy.sidewaysMarket ∧
    select_strategy_based_on_condition "volatile" = Strategy.volatileMarket ∧
    (s ≠ "trending" → s ≠ "sideways" → s ≠ "volatile" →
      select_strategy_based_on_condition s = Strategy.defaultStrategy) := by
  refine ⟨by decide, by decide, by decide, ?_⟩
  intro h1 h2 h3
  simp [select_strategy_based_on_condition, h1, h2, h3]

/-- Witness for C2: the fallback fires on "trending and volatile", the
regime string with no explicit registry entry. -/
theorem select_strategy_total_witness :
    select_strategy_based_on_condition "trending and volatile" = Strategy.defaultStrategy :=
  (select_strategy_total "trending and volatile").2.2.2
    (by decide) (by decide) (by decide)

/-- Each vote of the trend-following evaluators is binary. -/
theorem smaVote_buy_or_sell (s l : ℕ) (closes : List ℚ) :
    smaVote s l closes = "buy" ∨ smaVote s l closes = "sell" := by
  unfold smaVote; split <;> simp

/-- The MACD vote is binary. -/
theorem macdVote_buy_or_sell (m ms : ℚ) :
    macdVote m ms = "buy" ∨ macdVote m ms = "sell" := by
  unfold macdVote; split <;> simp

/-- The ADX vote is binary. -/
theorem adxVote_buy_or_sell (a t : ℚ) :
    adxVote a t = "buy" ∨ adxVote a t = "sell" := by
  unfold adxVote; split <;> simp

/-- C3: when the latest ATR does not exceed the volatility threshold, the
hybrid evaluator is unanimous 3-of-3: it returns "buy" exactly when all
three votes are "buy", "sell" exactly when all three are "sell", and
"hold" whenever any single vote dissents. -/
theorem hybrid_nonvolatile_unanimous (closes : List ℚ)
    (macd macdsignal adx atr : ℚ) (ssw slw : ℕ) (athr vt : ℚ)
    (h : ¬ atr > vt) :
    (hybrid_trend_following_strategy closes macd macdsignal adx atr ssw slw athr vt = "buy" ↔
      smaVote ssw slw closes = "buy" ∧ macdVote macd macdsignal = "buy" ∧
        adxVote adx athr = "buy") ∧
    (hybrid_trend_following_strategy closes macd macdsignal adx atr ssw slw athr vt = "sell" ↔
      smaVote ssw slw closes = "sell" ∧ macdVote macd macdsignal = "sell" ∧
        adxVote adx athr = "sell") ∧
    (¬ (smaVote ssw slw closes = "buy" ∧ macdVote macd macdsignal = "buy" ∧
          adxVote adx athr = "buy") →
      ¬ (smaVote ssw slw closes = "sell" ∧ macdVote macd macdsignal = "sell" ∧
          adxVote adx athr = "sell") →
      hybrid_trend_following_strategy closes macd macdsignal adx atr ssw slw athr vt = "hold") := by
  rcases smaVote_buy_or_sell ssw slw closes with hs | hs <;>
    rcases macdVote_buy_or_sell macd macdsignal with hm | hm <;>
      rcases adxVote_buy_or_sell adx athr with ha | ha <;>
        simp [hybrid_trend_following_strategy, hs, hm, ha, h]

/-- Witness for C3: a calm window with three "sell" votes yields "sell". -/
theorem hybrid_nonvolatile_unanimous_witness :
    ¬ (0 : ℚ) > 1 ∧
    hybrid_trend_following_strategy [1] 0 1 0 0 50 200 25 1 = "sell" :=
  ⟨by norm_num,
   (hybrid_nonvolatile_unanimous [1] 0 1 0 0 50 200 25 1 (by norm_num)).2.1.mpr
     ⟨by norm_num [smaVote, rollingMeanLast], by norm_num [macdVote],
      by norm_num [adxVote]⟩⟩

/-- C4: when the latest ATR exceeds the volatility threshold, the hybrid
evaluator applies the 2-of-3 majority rule: 2 or 3 "buy" votes yield "buy",
exactly 1 "buy" vote (hence 2 "sell" votes) yields "sell", and
symmetrically for "sell". -/
theorem hybrid_volatile_majority (closes : List ℚ)
    (macd macdsignal adx atr : ℚ) (ssw slw : ℕ) (athr vt : ℚ)
    (h : atr > vt) :
    ([smaVote ssw slw closes, macdVote macd macdsignal, adxVote adx athr].count "buy" = 2 ∨
        [smaVote ssw slw closes, macdVote macd macdsignal, adxVote adx athr].count "buy" = 3 →
      hybrid_trend_following_strategy closes macd macdsignal adx atr ssw slw athr vt = "buy") ∧
    ([smaVote ssw slw closes, macdVote macd macdsignal, adxVote adx athr].count "buy" = 1 →
      hybrid_trend_following_strategy closes macd macdsignal adx atr ssw slw athr vt = "sell") ∧
    ([smaVote ssw slw closes, macdVote macd macdsignal, adxVote adx athr].count "sell" = 2 ∨
        [smaVote ssw slw closes, macdVote macd macdsignal, adxVote adx athr].count "sell" = 3 →
      hybrid_trend_following_strategy closes macd macdsignal adx atr ssw slw athr vt = "sell") ∧
    ([smaVote ssw slw closes, macdVote macd macdsignal, adxVote adx athr].count "sell" = 1 →
      hybrid_trend_following_strategy closes macd macdsignal adx atr ssw slw athr vt = "buy") := by
  rcases smaVote_buy_or_sell ssw slw closes with hs | hs <;>
    rcases macdVote_buy_or_sell macd macdsignal with hm | hm <;>
      rcases adxVote_buy_or_sell adx athr with ha | ha <;>
        simp [hybrid_trend_following_strategy, hs, hm, ha, h]

/-- Witness for C4: a volatile window with 2 "buy" votes yields "buy". -/
theorem hybrid_volatile_majority_witness :
    (2 : ℚ) > 1 ∧
    hybrid_trend_following_strategy [1] 1 0 30 2 50 200 25 1 = "buy" :=
  ⟨by norm_num,
   (hybrid_volatile_majority [1] 1 0 30 2 50 200 25 1 (by norm_num)).1
     (Or.inl (by norm_num [smaVote, macdVote, adxVote, rollingMeanLast,
       List.count_cons, List.count_nil]; decide))⟩

/-- C10: whenever the 2-of-3 majority rule is active, "hold" is
unreachable: in the hybrid evaluator's volatile branch and in the
standalone consensus variant, the three binary votes always give one side
at least 2. -/
theorem majority_rule_never_hold (closes : List ℚ)
    (macd macdsignal adx atr : ℚ) (ssw slw : ℕ) (athr vt : ℚ)
    (h : atr > vt) :
    hybrid_trend_following_strategy closes macd macdsignal adx atr ssw slw athr vt ≠ "hold" ∧
    consensus_trend_following_strategy closes macd macdsignal adx ssw slw athr ≠ "hold" := by
  rcases smaVote_buy_or_sell ssw slw closes with hs | hs <;>
    rcases macdVote_buy_or_sell macd macdsignal with hm | hm <;>
      rcases adxVote_buy_or_sell adx athr with ha | ha <;>
        simp [hybrid_trend_following_strategy, consensus_trend_following_strategy,
          hs, hm, ha, h]

/-- Witness for C10: a concrete volatile window on which both evaluators
decide rather than hold. -/
theorem majority_rule_never_hold_witness :
    (2 : ℚ) > 1 ∧
    hybrid_trend_following_strategy [1] 1 0 30 2 50 200 25 1 ≠ "hold" ∧
    consensus_trend_following_strategy [1] 1 0 30 50 200 25 ≠ "hold" :=
  ⟨by norm_num, majority_rule_never_hold [1] 1 0 30 2 50 200 25 1 (by norm_num)⟩

/-- C5: the volatile-market evaluator returns "buy" with stop-loss
close minus 1.5 ATR exactly when RSI < 30 and close is below the lower
band, "sell" with stop-loss close plus 1.5 ATR exactly when RSI > 70 and
close is above the upper band, and otherwise "hold" with no stop-loss; a
"hold" action never carries a stop-loss. -/
theorem volatile_market_strategy_spec (close upper lower rsi atr : ℚ) :
    (volatile_market_strategy close upper lower rsi atr 70 30 (3 / 2) =
        ("buy", some (close - 3 / 2 * atr)) ↔ rsi < 30 ∧ close < lower) ∧
    (volatile_market_strategy close upper lower rsi atr 70 30 (3 / 2) =
        ("sell", some (close + 3 / 2 * atr)) ↔ rsi > 70 ∧ close > upper) ∧
    (¬ (rsi < 30 ∧ close < lower) → ¬ (rsi > 70 ∧ close > upper) →
      volatile_market_strategy close upper lower rsi atr 70 30 (3 / 2) = ("hold", none)) ∧
    ((volatile_market_strategy close upper lower rsi atr 70 30 (3 / 2)).1 = "hold" →
      (volatile_market_strategy close upper lower rsi atr 70 30 (3 / 2)).2 = none) := by
  by_cases hb : rsi < 30 ∧ close < lower
  · have hs : ¬ (rsi > 70 ∧ close > upper) := fun hs => by
      have := hb.1; have := hs.1; linarith
    simp [volatile_market_strategy, hb, hs]
  · by_cases hs : rsi > 70 ∧ close > upper
    · simp [volatile_market_strategy, hb, hs]
    · simp [volatile_market_strategy, hb, hs]

/-- Witness for C5: a "buy" with its stop-loss at a concrete oversold
breakout, obtained from the buy case of the theorem. -/
theorem volatile_market_strategy_spec_witness :
    volatile_market_strategy 5 20 10 25 2 70 30 (3 / 2) = ("buy", some 2) := by
  have h := (volatile_market_strategy_spec 5 20 10 25 2).1.mpr ⟨by norm_num, by norm_num⟩
  rw [h]
  norm_num

/-- Counterexample for C6: at close 0, lower band 1, upper band 2,
RSI 80, %K 50, %D 50, a sell trigger holds (RSI 80 > 70) yet the evaluator
returns "buy" (close 0 is also below the lower band 1 and the buy branch
is checked first), so "returns Sell if ANY sell trigger holds" fails as
stated. -/
theorem sideways_market_strategy_sell_refuted :
    ((0 : ℚ) > 2 ∨ (80 : ℚ) > 70 ∨ ((50 : ℚ) > 80 ∧ (50 : ℚ) < 50)) ∧
    sideways_market_strategy 0 1 2 80 50 50 = "buy" := by
  constructor
  · right; left; norm_num
  · norm_num [sideways_market_strategy]

/-- C6 (amended): the sideways evaluator returns "buy" exactly when some
buy trigger holds, "sell" exactly when some sell trigger holds and no buy
trigger does (the buy branch takes precedence), and "hold" otherwise. -/
theorem sideways_market_strategy_spec (close lower upper rsi k d : ℚ) :
    (sideways_market_strategy close lower upper rsi k d = "buy" ↔
      (close < lower ∨ rsi < 30 ∨ (k < 20 ∧ k > d))) ∧
    (sideways_market_strategy close lower upper rsi k d = "sell" ↔
      (¬ (close < lower ∨ rsi < 30 ∨ (k < 20 ∧ k > d)) ∧
        (close > upper ∨ rsi > 70 ∨ (k > 80 ∧ k < d)))) ∧
    (¬ (close < lower ∨ rsi < 30 ∨ (k < 20 ∧ k > d)) →
      ¬ (close > upper ∨ rsi > 70 ∨ (k > 80 ∧ k < d)) →
      sideways_market_strategy close lower upper rsi k d = "hold") := by
  by_cases hb : close < lower ∨ rsi < 30 ∨ (k < 20 ∧ k > d)
  · simp [sideways_market_strategy, hb]
  · by_cases hs : close > upper ∨ rsi > 70 ∨ (k > 80 ∧ k < d)
    · simp [sideways_market_strategy, hb, hs]
    · simp [sideways_market_strategy, hb, hs]

/-- Witness for C6 (amended): a concrete overbought window with no buy
trigger yields "sell" through the amended sell case. -/
theorem sideways_market_strategy_spec_witness :
    sideways_market_strategy 10 1 20 80 50 50 = "sell" :=
  (sideways_market_strategy_spec 10 1 20 80 50 50).2.1.mpr
    ⟨by norm_num, Or.inr (Or.inl (by norm_num))⟩

/-- C7: in the default evaluator, whenever exactly one of the three
conditions of a buy consensus (MACD above signal, RSI below 30, close
above SAR) is flipped to false, the result is "hold", and likewise for the
sell consensus; there is no majority fallback. -/
theorem default_strategy_flip (close macd macdsignal rsi sar : ℚ) :
    (¬ macd > macdsignal → rsi < 30 → close > sar →
      default_strategy close macd macdsignal rsi sar 70 30 = "hold") ∧
    (macd > macdsignal → ¬ rsi < 30 → close > sar →
      default_strategy close macd macdsignal rsi sar 70 30 = "hold") ∧
    (macd > macdsignal → rsi < 30 → ¬ close > sar →
      default_strategy close macd macdsignal rsi sar 70 30 = "hold") ∧
    (¬ macd < macdsignal → rsi > 70 → close < sar →
      default_strategy close macd macdsignal rsi sar 70 30 = "hold") ∧
    (macd < macdsignal → ¬ rsi > 70 → close < sar →
      default_strategy close macd macdsignal rsi sar 70 30 = "hold") ∧
    (macd < macdsignal → rsi > 70 → ¬ close < sar →
      default_strategy close macd macdsignal rsi sar 70 30 = "hold") := by
  refine ⟨?_, ?_, ?_, ?_, ?_, ?_⟩ <;> intro h1 h2 h3
  · have hnos : ¬ rsi > 70 := by linarith
    simp [default_strategy, h1, h2, h3, hnos]
  · have hnod : ¬ macd < macdsignal := by linarith
    simp [default_strategy, h1, h2, h3, hnod]
  · have hnod : ¬ macd < macdsignal := by linarith
    simp [default_strategy, h1, h2, h3, hnod]
  · have hnob : ¬ rsi < 30 := by linarith
    simp [default_strategy, h1, h2, h3, hnob]
  · have hnou : ¬ macd > macdsignal := by linarith
    simp [default_strategy, h1, h2, h3, hnou]
  · have hnou : ¬ macd > macdsignal := by linarith
    simp [default_strategy, h1, h2, h3, hnou]

/-- Witness for C7: with RSI oversold and close above SAR but the MACD
cross flipped to false, the default evaluator holds. -/
theorem default_strategy_flip_witness :
    (¬ (0 : ℚ) > 0) ∧ (20 : ℚ) < 30 ∧ (1 : ℚ) > 0 ∧
    default_strategy 1 0 0 20 0 70 30 = "hold" :=
  ⟨by norm_num, by norm_num, by norm_num,
   (default_strategy_flip 1 0 0 20 0).1 (by norm_num) (by norm_num) (by norm_num)⟩

/-- C8: whenever the short-window SMA of close equals the long-window SMA,
the SMA vote of the trend-following evaluators is "sell", since the
comparison is the strict short greater than long with no tie case. -/
theorem smaVote_tie_sell (closes : List ℚ)
    (h : rollingMeanLast 50 closes = rollingMeanLast 200 closes) :
    smaVote 50 200 closes = "sell" := by
  simp [smaVote, h]

/-- Witness for C8: close flat at 100 for 250 bars makes both rolling
means 100, and the vote is "sell". -/
theorem smaVote_tie_sell_witness :
    rollingMeanLast 50 (List.replicate 250 (100 : ℚ)) =
      rollingMeanLast 200 (List.replicate 250 (100 : ℚ)) ∧
    smaVote 50 200 (List.replicate 250 (100 : ℚ)) = "sell" := by
  have h : rollingMeanLast 50 (List.replicate 250 (100 : ℚ)) =
      rollingMeanLast 200 (List.replicate 250 (100 : ℚ)) := by
    norm_num [rollingMeanLast, List.drop_replicate, List.sum_replicate]
  exact ⟨h, smaVote_tie_sell (List.replicate 250 (100 : ℚ)) h⟩

/-- C9: the classifier has no insufficient-data outcome. On a window
shorter than the lookback the smoothed snapshot is undefined (pandas NaN,
modelled as `none`) and every comparison with it is false, so the
classifier silently returns "sideways" instead of failing fast; in
general it can only ever return one of the four regime strings. -/
theorem identify_market_condition_no_insufficient_data :
    identify_market_condition none none = "sideways" ∧
    ∀ a w, identify_market_condition a w = "trending and volatile" ∨
      identify_market_condition a w = "trending" ∨
      identify_market_condition a w = "volatile" ∨
      identify_market_condition a w = "sideways" := by
  refine ⟨rfl, ?_⟩
  intro a w
  simp only [identify_market_condition]
  split_ifs <;> simp
